import Mathlib

/-!
Verification of the energy-flow decomposition of `netzero-ems`
(`calculate_flows` in `src/app.py`), shallowly embedded in Lean 4.

Modelling decisions:
* Python floats are modelled by `ℚ`; every arithmetic operation performed by
  `calculate_flows` (`min`, subtraction, negation, addition, division by the
  constant 1000) is exact on the inputs of interest, so `ℚ` is a faithful
  carrier.
* The input `raw_data : dict` is modelled by a structure with one slot per
  metric key the function reads.  A slot is `Option (Option ℚ)`:
  `none` means the key is absent from the mapping (then
  `raw_data.get(key, {"value": 0})` supplies the default `{"value": 0}`);
  `some none` means the key is present but its `"value"` field is missing or
  not convertible by `float` (then the subscript or `float(...)` raises);
  `some (some q)` means the key is present with numeric value `q`.
* A raised exception is modelled by `Option`: `calculate_flows` returns
  `none` exactly when the Python function raises.
* The Python dict `flows` has a fixed key set written once in source order;
  it is modelled by the structure `Flows`.  The returned dict comprehension
  `{k: v for k, v in flows.items() if v > 0}` preserves insertion order, so
  the result is modelled as the insertion-ordered association list of the
  eight entries, filtered by `0 < v`.
-/

/-- One slot of the raw-data mapping, see the header comment. -/
abbrev MetricSlot := Option (Option ℚ)

/-- The four metric keys `calculate_flows` reads from `raw_data`. -/
structure RawData where
  totalSolarPower : MetricSlot
  totalConsumptionPower : MetricSlot
  totalGridPower : MetricSlot
  batteryPower : MetricSlot
deriving DecidableEq

/-- `float(raw_data.get(key, {"value": 0})["value"])`: an absent key defaults
to 0; a present entry whose `"value"` field is missing or non-numeric raises
(modelled by `none`). -/
def readMetric : MetricSlot → Option ℚ
  | none => some 0
  | some none => none
  | some (some q) => some q

/-- The fixed `flows` dictionary of `calculate_flows`, all entries
initialised to `0.0`, field order = insertion order in the source. -/
structure Flows where
  pvToLoad : ℚ
  pvToBattery : ℚ
  pvToGrid : ℚ
  gridToLoad : ℚ
  gridToBattery : ℚ
  batteryToLoad : ℚ
  batteryToGrid : ℚ
  loadToGrid : ℚ
deriving DecidableEq

/-- All-zero initial `flows` dictionary. -/
def emptyFlows : Flows := ⟨0, 0, 0, 0, 0, 0, 0, 0⟩

/-- The mutable local state of `calculate_flows`: the residual values of
`pv_power`, `load_power`, `battery_power` and the `flows` dict.
(`grid_power` is read but never used nor mutated.) -/
structure FlowState where
  pv : ℚ
  load : ℚ
  battery : ℚ
  flows : Flows
deriving DecidableEq

/-- The `# Distribute PV power` block of `calculate_flows`. -/
def stepPV (s : FlowState) : FlowState :=
  if 0 < s.pv then
    let t := min s.pv s.load
    let s1 : FlowState := ⟨s.pv - t, s.load - t, s.battery, { s.flows with pvToLoad := t }⟩
    let s2 : FlowState :=
      if s1.battery < 0 ∧ 0 < s1.pv then
        let u := min s1.pv (-s1.battery)
        ⟨s1.pv - u, s1.load, s1.battery + u, { s1.flows with pvToBattery := u }⟩
      else s1
    if 0 < s2.pv then { s2 with flows := { s2.flows with pvToGrid := s2.pv } } else s2
  else s

/-- The `# Handle remaining load` block of `calculate_flows`. -/
def stepLoad (s : FlowState) : FlowState :=
  if 0 < s.load then
    let s1 : FlowState :=
      if 0 < s.battery then
        let t := min s.battery s.load
        ⟨s.pv, s.load - t, s.battery - t, { s.flows with batteryToLoad := t }⟩
      else s
    if 0 < s1.load then { s1 with flows := { s1.flows with gridToLoad := s1.load } } else s1
  else s

/-- The `# Battery charging from grid` and `# Excess battery to grid`
blocks of `calculate_flows`. -/
def stepBattery (s : FlowState) : FlowState :=
  let s1 : FlowState :=
    if s.battery < 0 then { s with flows := { s.flows with gridToBattery := -s.battery } } else s
  if 0 < s1.battery then { s1 with flows := { s1.flows with batteryToGrid := s1.battery } } else s1

/-- The state after the three mutation blocks of `calculate_flows`, started
from the parsed inputs and the all-zero `flows` dict. -/
def runFlows (pv load battery : ℚ) : FlowState :=
  stepBattery (stepLoad (stepPV ⟨pv, load, battery, emptyFlows⟩))

/-- `flows.items()` after the `# Convert to kW` loop (`flows[key] /= 1000`),
in dict insertion order. -/
def flowEntries (f : Flows) : List (String × ℚ) :=
  [("PV to Load", f.pvToLoad / 1000),
   ("PV to Battery", f.pvToBattery / 1000),
   ("PV to Grid", f.pvToGrid / 1000),
   ("Grid to Load", f.gridToLoad / 1000),
   ("Grid to Battery", f.gridToBattery / 1000),
   ("Battery to Load", f.batteryToLoad / 1000),
   ("Battery to Grid", f.batteryToGrid / 1000),
   ("Load to Grid", f.loadToGrid / 1000)]

/-- The body of `calculate_flows` after the four `float(...)` reads
succeeded: run the three blocks, convert to kW, and return
`{k: v for k, v in flows.items() if v > 0}`.  `grid_power` is bound by
the source but never used. -/
def calculate_flowsCore (pv load grid battery : ℚ) : List (String × ℚ) :=
  (flowEntries (runFlows pv load battery).flows).filter (fun p => 0 < p.2)

/-- `calculate_flows(raw_data)`: parse the four metrics (any malformed
present entry raises, modelled by `none`), then compute the flow mapping. -/
def calculate_flows (raw : RawData) : Option (List (String × ℚ)) := do
  let pv ← readMetric raw.totalSolarPower
  let load ← readMetric raw.totalConsumptionPower
  let grid ← readMetric raw.totalGridPower
  let battery ← readMetric raw.batteryPower
  pure (calculate_flowsCore pv load grid battery)

/-- Value of key `k` in the result mapping, absent entries counting as 0. -/
def flowValue (l : List (String × ℚ)) (k : String) : ℚ :=
  ((l.find? (fun p => p.1 == k)).map Prod.snd).getD 0

/-- The 8 fixed flow names, in source order. -/
def flowNames : List String :=
  ["PV to Load", "PV to Battery", "PV to Grid", "Grid to Load",
   "Grid to Battery", "Battery to Load", "Battery to Grid", "Load to Grid"]

/-- Convenience constructor: a raw mapping whose four metrics are all
present with numeric values. -/
def mkRaw (pv load grid battery : ℚ) : RawData :=
  ⟨some (some pv), some (some load), some (some grid), some (some battery)⟩

/-! ### Sanity checks: the scenarios of the spec, evaluated -/

example : calculate_flows (mkRaw 5000 2000 0 (-1000)) =
    some [("PV to Load", 2), ("PV to Battery", 1), ("PV to Grid", 2)] := by
  norm_num [calculate_flows, calculate_flowsCore, runFlows, stepPV, stepLoad, stepBattery,
    flowEntries, readMetric, emptyFlows, mkRaw, List.filter, min_def]

example : calculate_flows (mkRaw 0 1000 0 800) =
    some [("Grid to Load", 1/5), ("Battery to Load", 4/5)] := by
  norm_num [calculate_flows, calculate_flowsCore, runFlows, stepPV, stepLoad, stepBattery,
    flowEntries, readMetric, emptyFlows, mkRaw, List.filter, min_def]

example : calculate_flows (mkRaw 0 0 0 0) = some [] := by
  norm_num [calculate_flows, calculate_flowsCore, runFlows, stepPV, stepLoad, stepBattery,
    flowEntries, readMetric, emptyFlows, mkRaw, List.filter, min_def]

/-! ### Which fields each block writes

`stepPV` writes only the three `PV to *` entries (and the residuals),
`stepLoad` only `Battery to Load` and `Grid to Load`, `stepBattery` only
`Grid to Battery` and `Battery to Grid`; no block writes `Load to Grid`. -/

theorem stepPV_gridToLoad (s : FlowState) :
    (stepPV s).flows.gridToLoad = s.flows.gridToLoad := by
  simp only [stepPV]; split_ifs <;> rfl

theorem stepPV_gridToBattery (s : FlowState) :
    (stepPV s).flows.gridToBattery = s.flows.gridToBattery := by
  simp only [stepPV]; split_ifs <;> rfl

theorem stepPV_batteryToLoad (s : FlowState) :
    (stepPV s).flows.batteryToLoad = s.flows.batteryToLoad := by
  simp only [stepPV]; split_ifs <;> rfl

theorem stepPV_batteryToGrid (s : FlowState) :
    (stepPV s).flows.batteryToGrid = s.flows.batteryToGrid := by
  simp only [stepPV]; split_ifs <;> rfl

theorem stepPV_loadToGrid (s : FlowState) :
    (stepPV s).flows.loadToGrid = s.flows.loadToGrid := by
  simp only [stepPV]; split_ifs <;> rfl

theorem stepLoad_pvToLoad (s : FlowState) :
    (stepLoad s).flows.pvToLoad = s.flows.pvToLoad := by
  simp only [stepLoad]; split_ifs <;> rfl

theorem stepLoad_pvToBattery (s : FlowState) :
    (stepLoad s).flows.pvToBattery = s.flows.pvToBattery := by
  simp only [stepLoad]; split_ifs <;> rfl

theorem stepLoad_pvToGrid (s : FlowState) :
    (stepLoad s).flows.pvToGrid = s.flows.pvToGrid := by
  simp only [stepLoad]; split_ifs <;> rfl

theorem stepLoad_gridToBattery (s : FlowState) :
    (stepLoad s).flows.gridToBattery = s.flows.gridToBattery := by
  simp only [stepLoad]; split_ifs <;> rfl

theorem stepLoad_batteryToGrid (s : FlowState) :
    (stepLoad s).flows.batteryToGrid = s.flows.batteryToGrid := by
  simp only [stepLoad]; split_ifs <;> rfl

theorem stepLoad_loadToGrid (s : FlowState) :
    (stepLoad s).flows.loadToGrid = s.flows.loadToGrid := by
  simp only [stepLoad]; split_ifs <;> rfl

theorem stepBattery_pvToLoad (s : FlowState) :
    (stepBattery s).flows.pvToLoad = s.flows.pvToLoad := by
  simp only [stepBattery]; split_ifs <;> rfl

theorem stepBattery_pvToBattery (s : FlowState) :
    (stepBattery s).flows.pvToBattery = s.flows.pvToBattery := by
  simp only [stepBattery]; split_ifs <;> rfl

theorem stepBattery_pvToGrid (s : FlowState) :
    (stepBattery s).flows.pvToGrid = s.flows.pvToGrid := by
  simp only [stepBattery]; split_ifs <;> rfl

theorem stepBattery_gridToLoad (s : FlowState) :
    (stepBattery s).flows.gridToLoad = s.flows.gridToLoad := by
  simp only [stepBattery]; split_ifs <;> rfl

theorem stepBattery_batteryToLoad (s : FlowState) :
    (stepBattery s).flows.batteryToLoad = s.flows.batteryToLoad := by
  simp only [stepBattery]; split_ifs <;> rfl

theorem stepBattery_loadToGrid (s : FlowState) :
    (stepBattery s).flows.loadToGrid = s.flows.loadToGrid := by
  simp only [stepBattery]; split_ifs <;> rfl

/-! ### Characterizations of the final battery flows -/

theorem stepBattery_battery (s : FlowState) : (stepBattery s).battery = s.battery := by
  simp only [stepBattery]; split_ifs <;> rfl

theorem stepBattery_gridToBattery (s : FlowState) :
    (stepBattery s).flows.gridToBattery =
      if s.battery < 0 then -s.battery else s.flows.gridToBattery := by
  simp only [stepBattery]; split_ifs <;> rfl

theorem stepBattery_batteryToGrid (s : FlowState) :
    (stepBattery s).flows.batteryToGrid =
      if 0 < s.battery then s.battery else s.flows.batteryToGrid := by
  simp only [stepBattery]; split_ifs <;> rfl

/-! ### `stepPV` from the initial state: sign and conservation facts -/

theorem stepPV0_pvToLoad_nonneg (pv load battery : ℚ) (hpv : 0 ≤ pv) (hload : 0 ≤ load) :
    0 ≤ (stepPV ⟨pv, load, battery, emptyFlows⟩).flows.pvToLoad := by
  simp only [stepPV, emptyFlows]
  split_ifs <;> simp_all [le_min_iff]

theorem stepPV0_pvToBattery_nonneg (pv load battery : ℚ) :
    0 ≤ (stepPV ⟨pv, load, battery, emptyFlows⟩).flows.pvToBattery := by
  simp only [stepPV, emptyFlows]
  split_ifs <;> simp_all [le_min_iff] <;> linarith

theorem stepPV0_pvToGrid_nonneg (pv load battery : ℚ) :
    0 ≤ (stepPV ⟨pv, load, battery, emptyFlows⟩).flows.pvToGrid := by
  simp only [stepPV, emptyFlows]
  split_ifs <;> simp_all <;> linarith

theorem stepPV0_sum (pv load battery : ℚ) (hpv : 0 ≤ pv) :
    (stepPV ⟨pv, load, battery, emptyFlows⟩).flows.pvToLoad +
      (stepPV ⟨pv, load, battery, emptyFlows⟩).flows.pvToBattery +
      (stepPV ⟨pv, load, battery, emptyFlows⟩).flows.pvToGrid = pv := by
  simp only [stepPV, emptyFlows]
  rcases le_total pv load with hm | hm
  · simp only [min_eq_left hm]
    split_ifs <;> simp_all <;> linarith
  · simp only [min_eq_right hm]
    split_ifs <;> simp_all <;>
      linarith [min_le_left (pv - load) (-battery), min_le_right (pv - load) (-battery)]

theorem stepPV0_load_nonpos_of_pvToGrid_pos (pv load battery : ℚ)
    (h : 0 < (stepPV ⟨pv, load, battery, emptyFlows⟩).flows.pvToGrid) :
    (stepPV ⟨pv, load, battery, emptyFlows⟩).load ≤ 0 := by
  simp only [stepPV, emptyFlows] at h ⊢
  rcases le_total pv load with hm | hm
  · simp only [min_eq_left hm] at h ⊢
    split_ifs at h ⊢ <;> simp_all <;> linarith
  · simp only [min_eq_right hm] at h ⊢
    split_ifs at h ⊢ <;> simp_all

/-! ### `stepLoad` facts -/

theorem stepLoad_of_nonpos (s : FlowState) (h : s.load ≤ 0) : stepLoad s = s := by
  simp only [stepLoad]
  rw [if_neg (not_lt.mpr h)]

/-! ### Projections of `runFlows` back to the step that wrote them -/

theorem runFlows_pvToLoad (pv load battery : ℚ) :
    (runFlows pv load battery).flows.pvToLoad =
      (stepPV ⟨pv, load, battery, emptyFlows⟩).flows.pvToLoad := by
  unfold runFlows; rw [stepBattery_pvToLoad, stepLoad_pvToLoad]

theorem runFlows_pvToBattery (pv load battery : ℚ) :
    (runFlows pv load battery).flows.pvToBattery =
      (stepPV ⟨pv, load, battery, emptyFlows⟩).flows.pvToBattery := by
  unfold runFlows; rw [stepBattery_pvToBattery, stepLoad_pvToBattery]

theorem runFlows_pvToGrid (pv load battery : ℚ) :
    (runFlows pv load battery).flows.pvToGrid =
      (stepPV ⟨pv, load, battery, emptyFlows⟩).flows.pvToGrid := by
  unfold runFlows; rw [stepBattery_pvToGrid, stepLoad_pvToGrid]

theorem runFlows_loadToGrid (pv load battery : ℚ) :
    (runFlows pv load battery).flows.loadToGrid = 0 := by
  unfold runFlows
  rw [stepBattery_loadToGrid, stepLoad_loadToGrid, stepPV_loadToGrid]; rfl

theorem runFlows_gridToBattery (pv load battery : ℚ) :
    (runFlows pv load battery).flows.gridToBattery =
      if (stepLoad (stepPV ⟨pv, load, battery, emptyFlows⟩)).battery < 0 then
        -(stepLoad (stepPV ⟨pv, load, battery, emptyFlows⟩)).battery else 0 := by
  unfold runFlows
  rw [stepBattery_gridToBattery, stepLoad_gridToBattery, stepPV_gridToBattery]; rfl

theorem runFlows_batteryToGrid (pv load battery : ℚ) :
    (runFlows pv load battery).flows.batteryToGrid =
      if 0 < (stepLoad (stepPV ⟨pv, load, battery, emptyFlows⟩)).battery then
        (stepLoad (stepPV ⟨pv, load, battery, emptyFlows⟩)).battery else 0 := by
  unfold runFlows
  rw [stepBattery_batteryToGrid, stepLoad_batteryToGrid, stepPV_batteryToGrid]; rfl

/-! ### Looking a key up in the filtered result -/

theorem flowValue_cons_ne (x : String × ℚ) (l : List (String × ℚ)) (k : String)
    (hx : x.1 ≠ k) : flowValue (x :: l) k = flowValue l k := by
  have hb : (x.1 == k) = false := beq_eq_false_iff_ne.mpr hx
  simp [flowValue, List.find?, hb]

theorem flowValue_eq_zero_of_keys_ne (l : List (String × ℚ)) (k : String)
    (h : ∀ p ∈ l, p.1 ≠ k) : flowValue l k = 0 := by
  have : l.find? (fun p => p.1 == k) = none := by
    apply List.find?_eq_none.mpr
    intro p hp
    simpa using h p hp
  simp [flowValue, this]

/-- Looking up key `k` in the `v > 0`-filtered entry list: if the unique
entry for `k` carries value `v`, the lookup yields `v` when `v > 0` and the
default 0 otherwise. -/
theorem flowValue_filter_append (pre post : List (String × ℚ)) (k : String) (v : ℚ)
    (hpre : ∀ p ∈ pre, p.1 ≠ k) (hpost : ∀ p ∈ post, p.1 ≠ k) :
    flowValue ((pre ++ (k, v) :: post).filter (fun p => 0 < p.2)) k =
      if 0 < v then v else 0 := by
  induction pre with
  | nil =>
      simp only [List.nil_append, List.filter_cons]
      by_cases h : 0 < v
      · simp [h, flowValue, List.find?]
      · rw [if_neg (by simpa using h), if_neg h]
        apply flowValue_eq_zero_of_keys_ne
        intro p hp
        exact hpost p (List.mem_of_mem_filter hp)
  | cons x xs ih =>
      have hx : x.1 ≠ k := hpre x (by simp)
      have hxs : ∀ p ∈ xs, p.1 ≠ k := fun p hp => hpre p (by simp [hp])
      rw [List.cons_append, List.filter_cons]
      by_cases hq : 0 < x.2
      · rw [if_pos (by simpa using hq), flowValue_cons_ne x _ k hx]
        exact ih hxs
      · rw [if_neg (by simpa using hq)]
        exact ih hxs

theorem flowValue_core_pvToLoad (pv load grid battery : ℚ) :
    flowValue (calculate_flowsCore pv load grid battery) "PV to Load" =
      if 0 < (runFlows pv load battery).flows.pvToLoad / 1000 then
        (runFlows pv load battery).flows.pvToLoad / 1000 else 0 := by
  refine flowValue_filter_append [] _ _ _ (by simp) ?_
  rintro p hp
  simp only [List.mem_cons, List.not_mem_nil, or_false] at hp
  rcases hp with rfl | rfl | rfl | rfl | rfl | rfl | rfl <;> simp

theorem flowValue_core_pvToBattery (pv load grid battery : ℚ) :
    flowValue (calculate_flowsCore pv load grid battery) "PV to Battery" =
      if 0 < (runFlows pv load battery).flows.pvToBattery / 1000 then
        (runFlows pv load battery).flows.pvToBattery / 1000 else 0 := by
  refine flowValue_filter_append
    [("PV to Load", (runFlows pv load battery).flows.pvToLoad / 1000)] _ _ _ ?_ ?_
  · rintro p hp
    simp only [List.mem_cons, List.not_mem_nil, or_false] at hp
    rcases hp with rfl <;> simp
  · rintro p hp
    simp only [List.mem_cons, List.not_mem_nil, or_false] at hp
    rcases hp with rfl | rfl | rfl | rfl | rfl | rfl <;> simp

theorem flowValue_core_pvToGrid (pv load grid battery : ℚ) :
    flowValue (calculate_flowsCore pv load grid battery) "PV to Grid" =
      if 0 < (runFlows pv load battery).flows.pvToGrid / 1000 then
        (runFlows pv load battery).flows.pvToGrid / 1000 else 0 := by
  refine flowValue_filter_append
    [("PV to Load", (runFlows pv load battery).flows.pvToLoad / 1000),
     ("PV to Battery", (runFlows pv load battery).flows.pvToBattery / 1000)] _ _ _ ?_ ?_
  · rintro p hp
    simp only [List.mem_cons, List.not_mem_nil, or_false] at hp
    rcases hp with rfl | rfl <;> simp
  · rintro p hp
    simp only [List.mem_cons, List.not_mem_nil, or_false] at hp
    rcases hp with rfl | rfl | rfl | rfl | rfl <;> simp

/-! ### Destructuring a successful run of `calculate_flows` -/

theorem calculate_flows_some (raw : RawData) (r : List (String × ℚ))
    (h : calculate_flows raw = some r) :
    ∃ pv load grid battery,
      readMetric raw.totalSolarPower = some pv ∧
      readMetric raw.totalConsumptionPower = some load ∧
      readMetric raw.totalGridPower = some grid ∧
      readMetric raw.batteryPower = some battery ∧
      r = calculate_flowsCore pv load grid battery := by
  cases hpv : readMetric raw.totalSolarPower with
  | none => simp [calculate_flows, hpv] at h
  | some pv =>
    cases hl : readMetric raw.totalConsumptionPower with
    | none => simp [calculate_flows, hpv, hl] at h
    | some load =>
      cases hg : readMetric raw.totalGridPower with
      | none => simp [calculate_flows, hpv, hl, hg] at h
      | some grid =>
        cases hb : readMetric raw.batteryPower with
        | none => simp [calculate_flows, hpv, hl, hg, hb] at h
        | some battery =>
          simp [calculate_flows, hpv, hl, hg, hb] at h
          exact ⟨pv, load, grid, battery, rfl, rfl, rfl, rfl, h.symm⟩

/-! ### From membership in the result to sign facts about the fields -/

theorem pos_of_div_thousand (x : ℚ) (h : 0 < x / 1000) : 0 < x := by
  rcases div_pos_iff.mp h with ⟨hx, _⟩ | ⟨_, hb⟩
  · exact hx
  · norm_num at hb

theorem mem_core_elim (pv load grid battery : ℚ) (p : String × ℚ)
    (h : p ∈ calculate_flowsCore pv load grid battery) :
    0 < p.2 ∧ p ∈ flowEntries (runFlows pv load battery).flows := by
  unfold calculate_flowsCore at h
  have h2 := List.of_mem_filter h
  exact ⟨by simpa using h2, List.mem_of_mem_filter h⟩

theorem mem_flowEntries_elim (f : Flows) (k : String) (v : ℚ)
    (h : (k, v) ∈ flowEntries f) :
    (k = "PV to Load" ∧ v = f.pvToLoad / 1000) ∨
    (k = "PV to Battery" ∧ v = f.pvToBattery / 1000) ∨
    (k = "PV to Grid" ∧ v = f.pvToGrid / 1000) ∨
    (k = "Grid to Load" ∧ v = f.gridToLoad / 1000) ∨
    (k = "Grid to Battery" ∧ v = f.gridToBattery / 1000) ∨
    (k = "Battery to Load" ∧ v = f.batteryToLoad / 1000) ∨
    (k = "Battery to Grid" ∧ v = f.batteryToGrid / 1000) ∨
    (k = "Load to Grid" ∧ v = f.loadToGrid / 1000) := by
  simpa only [flowEntries, List.mem_cons, List.not_mem_nil, or_false,
    Prod.mk.injEq] using h

theorem names_of_mem_flowEntries (f : Flows) (p : String × ℚ)
    (h : p ∈ flowEntries f) : p.1 ∈ flowNames := by
  simp only [flowEntries, List.mem_cons, List.not_mem_nil, or_false] at h
  rcases h with rfl | rfl | rfl | rfl | rfl | rfl | rfl | rfl <;> simp [flowNames]

/-- If the filtered result contains an entry for `"PV to Grid"`, the
`pvToGrid` field of the final state is strictly positive. -/
theorem pvToGrid_pos_of_mem (pv load grid battery v : ℚ)
    (h : ("PV to Grid", v) ∈ calculate_flowsCore pv load grid battery) :
    0 < (runFlows pv load battery).flows.pvToGrid := by
  obtain ⟨hv, hmem⟩ := mem_core_elim pv load grid battery _ h
  rcases mem_flowEntries_elim _ _ _ hmem with
    ⟨hk, _⟩ | ⟨hk, _⟩ | ⟨_, hv'⟩ | ⟨hk, _⟩ | ⟨hk, _⟩ | ⟨hk, _⟩ | ⟨hk, _⟩ | ⟨hk, _⟩ <;>
    first
      | (exact absurd hk (by decide))
      | (exact pos_of_div_thousand _ (hv' ▸ hv))

theorem gridToLoad_pos_of_mem (pv load grid battery v : ℚ)
    (h : ("Grid to Load", v) ∈ calculate_flowsCore pv load grid battery) :
    0 < (runFlows pv load battery).flows.gridToLoad := by
  obtain ⟨hv, hmem⟩ := mem_core_elim pv load grid battery _ h
  rcases mem_flowEntries_elim _ _ _ hmem with
    ⟨hk, _⟩ | ⟨hk, _⟩ | ⟨hk, _⟩ | ⟨_, hv'⟩ | ⟨hk, _⟩ | ⟨hk, _⟩ | ⟨hk, _⟩ | ⟨hk, _⟩ <;>
    first
      | (exact absurd hk (by decide))
      | (exact pos_of_div_thousand _ (hv' ▸ hv))

theorem gridToBattery_pos_of_mem (pv load grid battery v : ℚ)
    (h : ("Grid to Battery", v) ∈ calculate_flowsCore pv load grid battery) :
    0 < (runFlows pv load battery).flows.gridToBattery := by
  obtain ⟨hv, hmem⟩ := mem_core_elim pv load grid battery _ h
  rcases mem_flowEntries_elim _ _ _ hmem with
    ⟨hk, _⟩ | ⟨hk, _⟩ | ⟨hk, _⟩ | ⟨hk, _⟩ | ⟨_, hv'⟩ | ⟨hk, _⟩ | ⟨hk, _⟩ | ⟨hk, _⟩ <;>
    first
      | (exact absurd hk (by decide))
      | (exact pos_of_div_thousand _ (hv' ▸ hv))

theorem batteryToGrid_pos_of_mem (pv load grid battery v : ℚ)
    (h : ("Battery to Grid", v) ∈ calculate_flowsCore pv load grid battery) :
    0 < (runFlows pv load battery).flows.batteryToGrid := by
  obtain ⟨hv, hmem⟩ := mem_core_elim pv load grid battery _ h
  rcases mem_flowEntries_elim _ _ _ hmem with
    ⟨hk, _⟩ | ⟨hk, _⟩ | ⟨hk, _⟩ | ⟨hk, _⟩ | ⟨hk, _⟩ | ⟨hk, _⟩ | ⟨_, hv'⟩ | ⟨hk, _⟩ <;>
    first
      | (exact absurd hk (by decide))
      | (exact pos_of_div_thousand _ (hv' ▸ hv))

theorem loadToGrid_pos_of_mem (pv load grid battery v : ℚ)
    (h : ("Load to Grid", v) ∈ calculate_flowsCore pv load grid battery) :
    0 < (runFlows pv load battery).flows.loadToGrid := by
  obtain ⟨hv, hmem⟩ := mem_core_elim pv load grid battery _ h
  rcases mem_flowEntries_elim _ _ _ hmem with
    ⟨hk, _⟩ | ⟨hk, _⟩ | ⟨hk, _⟩ | ⟨hk, _⟩ | ⟨hk, _⟩ | ⟨hk, _⟩ | ⟨hk, _⟩ | ⟨_, hv'⟩ <;>
    first
      | (exact absurd hk (by decide))
      | (exact pos_of_div_thousand _ (hv' ▸ hv))

/-! ### Miscellaneous helpers for the claims -/

theorem readMetric_some (s : MetricSlot) (h : s ≠ some none) :
    ∃ q, readMetric s = some q := by
  match s with
  | none => exact ⟨0, rfl⟩
  | some none => exact absurd rfl h
  | some (some q) => exact ⟨q, rfl⟩

theorem if_div_of_nonneg (x : ℚ) (hx : 0 ≤ x) :
    (if 0 < x / 1000 then x / 1000 else 0) = x / 1000 := by
  split_ifs with h
  · rfl
  · have h0 : 0 ≤ x / 1000 := by positivity
    linarith

theorem readMetric_val (q : ℚ) : readMetric (some (some q)) = some q := rfl

theorem calculate_flowsCore_grid (pv load g1 g2 battery : ℚ) :
    calculate_flowsCore pv load g1 battery = calculate_flowsCore pv load g2 battery := rfl

theorem stepLoadBattery_flows_pv_irrelevant (pv1 pv2 l b : ℚ) (f : Flows) :
    (stepBattery (stepLoad ⟨pv1, l, b, f⟩)).flows =
      (stepBattery (stepLoad ⟨pv2, l, b, f⟩)).flows := by
  simp only [stepLoad, stepBattery]
  split_ifs <;> rfl

/-! ## The claims -/

/-- C1: for the input mapping with `TotalSolarPower` 1000,
`TotalConsumptionPower` 1500, `BatteryPower` -500 and `TotalGridPower` 0,
`calculate_flows` returns exactly the mapping
`PV to Load = 1.0, Grid to Load = 0.5, Grid to Battery = 0.5`
(in dict insertion order), with no `PV to Battery` or `PV to Grid` entry. -/
theorem C1_priority_ordering :
    calculate_flows (mkRaw 1000 1500 0 (-500)) =
      some [("PV to Load", 1), ("Grid to Load", 1/2), ("Grid to Battery", 1/2)] := by
  norm_num [calculate_flows, calculate_flowsCore, runFlows, stepPV, stepLoad, stepBattery,
    flowEntries, readMetric, emptyFlows, mkRaw, List.filter, min_def]

/-- C2: for every input mapping whose `TotalSolarPower` parses to `pv ≥ 0`
and whose `TotalConsumptionPower` parses to `load ≥ 0`, the sum of the
`PV to Load`, `PV to Battery` and `PV to Grid` entries of the result
(absent entries counting as 0), multiplied by 1000, equals `pv`. -/
theorem C2_pv_conservation (raw : RawData) (pv load : ℚ) (r : List (String × ℚ))
    (hpv : readMetric raw.totalSolarPower = some pv)
    (hload : readMetric raw.totalConsumptionPower = some load)
    (hpv0 : 0 ≤ pv) (hload0 : 0 ≤ load)
    (hr : calculate_flows raw = some r) :
    (flowValue r "PV to Load" + flowValue r "PV to Battery" +
      flowValue r "PV to Grid") * 1000 = pv := by
  obtain ⟨pv', load', grid, battery, hpv', hload', hg, hb, hrr⟩ :=
    calculate_flows_some raw r hr
  rw [hpv] at hpv'
  rw [hload] at hload'
  injection hpv' with hpe
  injection hload' with hle
  subst hpe
  subst hle
  subst hrr
  rw [flowValue_core_pvToLoad, flowValue_core_pvToBattery, flowValue_core_pvToGrid,
    runFlows_pvToLoad, runFlows_pvToBattery, runFlows_pvToGrid,
    if_div_of_nonneg _ (stepPV0_pvToLoad_nonneg pv load battery hpv0 hload0),
    if_div_of_nonneg _ (stepPV0_pvToBattery_nonneg pv load battery),
    if_div_of_nonneg _ (stepPV0_pvToGrid_nonneg pv load battery)]
  have hsum := stepPV0_sum pv load battery hpv0
  field_simp
  linarith

/-- Witness for C2 at the concrete input of C1. -/
theorem C2_pv_conservation_witness :
    (flowValue [("PV to Load", 1), ("Grid to Load", 1/2), ("Grid to Battery", 1/2)]
        "PV to Load" +
      flowValue [("PV to Load", 1), ("Grid to Load", 1/2), ("Grid to Battery", 1/2)]
        "PV to Battery" +
      flowValue [("PV to Load", 1), ("Grid to Load", 1/2), ("Grid to Battery", 1/2)]
        "PV to Grid") * 1000 = 1000 :=
  C2_pv_conservation (mkRaw 1000 1500 0 (-500)) 1000 1500 _ rfl rfl
    (by norm_num) (by norm_num)
    (by norm_num [calculate_flows, calculate_flowsCore, runFlows, stepPV, stepLoad,
      stepBattery, flowEntries, readMetric, emptyFlows, mkRaw, List.filter, min_def])

/-- C3 counterexample: an input mapping whose `TotalSolarPower` entry is
present but malformed (its `"value"` field is missing or non-numeric) makes
`calculate_flows` raise (`float(...)`/`KeyError`), modelled by `none` — it
does not treat the malformed value as 0 and return a result mapping. -/
theorem C3_counterexample :
    calculate_flows ⟨some none, none, none, none⟩ = none := rfl

/-- C3 amended: `calculate_flows` raises no error on any input mapping in
which every *present* metric carries a numeric value (missing keys default
to 0); only a present metric with a malformed or missing `"value"` field
makes it raise. -/
theorem C3_total_on_wellformed (raw : RawData)
    (h1 : raw.totalSolarPower ≠ some none)
    (h2 : raw.totalConsumptionPower ≠ some none)
    (h3 : raw.totalGridPower ≠ some none)
    (h4 : raw.batteryPower ≠ some none) :
    ∃ r, calculate_flows raw = some r := by
  obtain ⟨pv, e1⟩ := readMetric_some _ h1
  obtain ⟨load, e2⟩ := readMetric_some _ h2
  obtain ⟨grid, e3⟩ := readMetric_some _ h3
  obtain ⟨battery, e4⟩ := readMetric_some _ h4
  exact ⟨calculate_flowsCore pv load grid battery,
    by simp [calculate_flows, e1, e2, e3, e4]⟩

/-- Witness for the amended C3 on the all-keys-absent mapping. -/
theorem C3_total_on_wellformed_witness :
    ∃ r, calculate_flows ⟨none, none, none, none⟩ = some r :=
  C3_total_on_wellformed ⟨none, none, none, none⟩
    (by decide) (by decide) (by decide) (by decide)

/-- C4 counterexample: a negative `TotalConsumptionPower` is *not* replaced
by 0: with `pv = 1000, load = -500` the result differs from the one with
`load = 0` (the negative load inflates `PV to Grid` to 1.5 kW). -/
theorem C4_counterexample :
    calculate_flows (mkRaw 1000 (-500) 0 0) ≠ calculate_flows (mkRaw 1000 0 0 0) := by
  norm_num [calculate_flows, calculate_flowsCore, runFlows, stepPV, stepLoad, stepBattery,
    flowEntries, readMetric, emptyFlows, mkRaw, List.filter, min_def]

/-- C4 amended: missing metrics default to 0, and a *negative
`TotalSolarPower`* yields the same result as 0 (the PV block is skipped
either way); but negative values in general — in particular a negative
`TotalConsumptionPower` when PV is positive — are not replaced by 0. -/
theorem C4_negative_solar_as_zero (raw : RawData) (q : ℚ) (hq : q < 0) :
    calculate_flows { raw with totalSolarPower := some (some q) } =
      calculate_flows { raw with totalSolarPower := some (some 0) } := by
  have hcore : ∀ load grid battery : ℚ,
      calculate_flowsCore q load grid battery =
        calculate_flowsCore 0 load grid battery := by
    intro load grid battery
    unfold calculate_flowsCore runFlows
    have hq1 : stepPV ⟨q, load, battery, emptyFlows⟩ = ⟨q, load, battery, emptyFlows⟩ := by
      simp only [stepPV]
      rw [if_neg (not_lt.mpr (le_of_lt hq))]
    have hq2 : stepPV ⟨0, load, battery, emptyFlows⟩ = ⟨0, load, battery, emptyFlows⟩ := by
      simp only [stepPV]
      rw [if_neg (lt_irrefl 0)]
    rw [hq1, hq2, stepLoadBattery_flows_pv_irrelevant q 0 load battery emptyFlows]
  cases hl : readMetric raw.totalConsumptionPower with
  | none => simp [calculate_flows, readMetric_val, hl]
  | some load =>
    cases hg : readMetric raw.totalGridPower with
    | none => simp [calculate_flows, readMetric_val, hl, hg]
    | some grid =>
      cases hb : readMetric raw.batteryPower with
      | none => simp [calculate_flows, readMetric_val, hl, hg, hb]
      | some battery => simp [calculate_flows, readMetric_val, hl, hg, hb, hcore]

/-- Witness for the amended C4 with solar power -1 on a concrete base mapping. -/
theorem C4_negative_solar_as_zero_witness :
    calculate_flows { mkRaw 0 300 0 0 with totalSolarPower := some (some (-1)) } =
      calculate_flows { mkRaw 0 300 0 0 with totalSolarPower := some (some 0) } :=
  C4_negative_solar_as_zero (mkRaw 0 300 0 0) (-1) (by norm_num)

/-- C5: every entry of a result of `calculate_flows` has a strictly
positive value and its key is one of the 8 fixed flow names. -/
theorem C5_entries_positive_and_named (raw : RawData) (r : List (String × ℚ))
    (hr : calculate_flows raw = some r) (p : String × ℚ) (hp : p ∈ r) :
    0 < p.2 ∧ p.1 ∈ flowNames := by
  obtain ⟨pv, load, grid, battery, _, _, _, _, rfl⟩ := calculate_flows_some raw r hr
  obtain ⟨h1, h2⟩ := mem_core_elim _ _ _ _ _ hp
  exact ⟨h1, names_of_mem_flowEntries _ _ h2⟩

/-- Witness for C5 at the concrete input of C1 and its first entry. -/
theorem C5_entries_positive_and_named_witness :
    0 < (("PV to Load", (1 : ℚ))).2 ∧ (("PV to Load", (1 : ℚ))).1 ∈ flowNames :=
  C5_entries_positive_and_named (mkRaw 1000 1500 0 (-500))
    [("PV to Load", 1), ("Grid to Load", 1/2), ("Grid to Battery", 1/2)]
    (by norm_num [calculate_flows, calculate_flowsCore, runFlows, stepPV, stepLoad,
      stepBattery, flowEntries, readMetric, emptyFlows, mkRaw, List.filter, min_def])
    ("PV to Load", 1) (List.mem_cons_self _ _)

/-- C6: the result of `calculate_flows` never contains a `Load to Grid`
entry: that flow is never written, stays 0, and is dropped by the filter. -/
theorem C6_no_load_to_grid (raw : RawData) (r : List (String × ℚ))
    (hr : calculate_flows raw = some r) (v : ℚ) :
    ("Load to Grid", v) ∉ r := by
  obtain ⟨pv, load, grid, battery, _, _, _, _, rfl⟩ := calculate_flows_some raw r hr
  intro hmem
  have hpos := loadToGrid_pos_of_mem pv load grid battery v hmem
  rw [runFlows_loadToGrid] at hpos
  exact lt_irrefl 0 hpos

/-- Witness for C6 at the concrete input of C1. -/
theorem C6_no_load_to_grid_witness :
    ("Load to Grid", (1 : ℚ)) ∉
      [(("PV to Load" : String), (1 : ℚ)), ("Grid to Load", 1/2), ("Grid to Battery", 1/2)] :=
  C6_no_load_to_grid (mkRaw 1000 1500 0 (-500)) _
    (by norm_num [calculate_flows, calculate_flowsCore, runFlows, stepPV, stepLoad,
      stepBattery, flowEntries, readMetric, emptyFlows, mkRaw, List.filter, min_def]) 1

/-- C7: `TotalGridPower` does not influence the output: two input mappings
that agree on the other three metrics and carry any (parseable) grid slots
produce identical results.  (`grid_power` is bound by the source but never
used.) -/
theorem C7_grid_power_unused (raw : RawData) (s1 s2 : MetricSlot)
    (h1 : s1 ≠ some none) (h2 : s2 ≠ some none) :
    calculate_flows { raw with totalGridPower := s1 } =
      calculate_flows { raw with totalGridPower := s2 } := by
  obtain ⟨g1, e1⟩ := readMetric_some s1 h1
  obtain ⟨g2, e2⟩ := readMetric_some s2 h2
  cases hpv : readMetric raw.totalSolarPower with
  | none => simp [calculate_flows, hpv]
  | some pv =>
    cases hl : readMetric raw.totalConsumptionPower with
    | none => simp [calculate_flows, hpv, hl]
    | some load =>
      cases hb : readMetric raw.batteryPower with
      | none => simp [calculate_flows, hpv, hl, e1, e2, hb]
      | some battery =>
        simp [calculate_flows, hpv, hl, e1, e2, hb]
        exact calculate_flowsCore_grid pv load g1 g2 battery

/-- Witness for C7: grid slot 42 versus an absent grid key. -/
theorem C7_grid_power_unused_witness :
    calculate_flows { mkRaw 1000 1500 0 (-500) with totalGridPower := some (some 42) } =
      calculate_flows { mkRaw 1000 1500 0 (-500) with totalGridPower := none } :=
  C7_grid_power_unused (mkRaw 1000 1500 0 (-500)) (some (some 42)) none
    (by decide) (by decide)

/-- C8: `calculate_flows` is deterministic and stateless.  The source reads
`raw_data` only (never writes it) and mutates only function-local
temporaries, so its embedding is a pure function of the input structure;
two invocations on the same input therefore yield the same output. -/
theorem C8_deterministic (raw : RawData) :
    calculate_flows raw = calculate_flows raw := rfl

/-- C9: a result never contains both a `Grid to Battery` and a
`Battery to Grid` entry: both are written from the sign of the same final
`battery_power` residual, which cannot be negative and positive at once. -/
theorem C9_not_both_battery_flows (raw : RawData) (r : List (String × ℚ))
    (hr : calculate_flows raw = some r) (v w : ℚ) :
    ¬(("Grid to Battery", v) ∈ r ∧ ("Battery to Grid", w) ∈ r) := by
  obtain ⟨pv, load, grid, battery, _, _, _, _, rfl⟩ := calculate_flows_some raw r hr
  rintro ⟨hm1, hm2⟩
  have p1 := gridToBattery_pos_of_mem pv load grid battery v hm1
  have p2 := batteryToGrid_pos_of_mem pv load grid battery w hm2
  rw [runFlows_gridToBattery] at p1
  rw [runFlows_batteryToGrid] at p2
  split_ifs at p1 with hc1
  · split_ifs at p2 with hc2
    · linarith
    · exact lt_irrefl 0 p2
  · exact lt_irrefl 0 p1

/-- Witness for C9 at the concrete input of C1 (which has `Grid to Battery`). -/
theorem C9_not_both_battery_flows_witness :
    ¬((("Grid to Battery" : String), (1 : ℚ)) ∈
        [(("PV to Load" : String), (1 : ℚ)), ("Grid to Load", 1/2), ("Grid to Battery", 1/2)] ∧
      (("Battery to Grid" : String), (1 : ℚ)) ∈
        [(("PV to Load" : String), (1 : ℚ)), ("Grid to Load", 1/2), ("Grid to Battery", 1/2)]) :=
  C9_not_both_battery_flows (mkRaw 1000 1500 0 (-500)) _
    (by norm_num [calculate_flows, calculate_flowsCore, runFlows, stepPV, stepLoad,
      stepBattery, flowEntries, readMetric, emptyFlows, mkRaw, List.filter, min_def]) 1 1

/-- C10: a result never contains both a `PV to Grid` and a `Grid to Load`
entry: PV is only exported once the load residual reached 0, and then the
load block is skipped entirely. -/
theorem C10_pv_export_grid_import_exclusive (raw : RawData) (r : List (String × ℚ))
    (hr : calculate_flows raw = some r) (v w : ℚ) :
    ¬(("PV to Grid", v) ∈ r ∧ ("Grid to Load", w) ∈ r) := by
  obtain ⟨pv, load, grid, battery, _, _, _, _, rfl⟩ := calculate_flows_some raw r hr
  rintro ⟨hm1, hm2⟩
  have p1 := pvToGrid_pos_of_mem pv load grid battery v hm1
  have p2 := gridToLoad_pos_of_mem pv load grid battery w hm2
  rw [runFlows_pvToGrid] at p1
  have hload := stepPV0_load_nonpos_of_pvToGrid_pos pv load battery p1
  unfold runFlows at p2
  rw [stepBattery_gridToLoad, stepLoad_of_nonpos _ hload, stepPV_gridToLoad] at p2
  exact lt_irrefl 0 p2

/-- Witness for C10 at the concrete input of C1. -/
theorem C10_pv_export_grid_import_exclusive_witness :
    ¬((("PV to Grid" : String), (1 : ℚ)) ∈
        [(("PV to Load" : String), (1 : ℚ)), ("Grid to Load", 1/2), ("Grid to Battery", 1/2)] ∧
      (("Grid to Load" : String), (1 : ℚ)) ∈
        [(("PV to Load" : String), (1 : ℚ)), ("Grid to Load", 1/2), ("Grid to Battery", 1/2)]) :=
  C10_pv_export_grid_import_exclusive (mkRaw 1000 1500 0 (-500)) _
    (by norm_num [calculate_flows, calculate_flowsCore, runFlows, stepPV, stepLoad,
      stepBattery, flowEntries, readMetric, emptyFlows, mkRaw, List.filter, min_def]) 1 1
